import Mathlib

/-!
Verification of the vllm-poc HTTP wrapper: a shallow embedding of
`src/app.py` (chat-completion and health endpoints) and `src/config.py`
(platform detection and configuration selection), with theorems settling
the specification claims about them.
-/

namespace VllmPoc

/-! ## Python string primitives

`str.split()` with no arguments splits on runs of whitespace and drops
empty fields; `str.strip()` removes leading and trailing whitespace.
-/

/-- Whitespace characters recognised by Python `str.split()` / `str.strip()`
(space, tab, newline, carriage return, vertical tab, form feed). -/
def pyIsSpace (c : Char) : Bool :=
  c = ' ' || c = '\t' || c = '\n' || c = '\r' || c = Char.ofNat 11 || c = Char.ofNat 12

/-- Word scan for Python `s.split()`: `acc` holds the characters of the
current word in reverse; maximal whitespace-free runs become words and
whitespace runs separate them, contributing no empty fields. -/
def splitWordsAux : List Char → List Char → List String
  | [], acc => if acc.isEmpty then [] else [String.mk acc.reverse]
  | c :: rest, acc =>
    if pyIsSpace c then
      if acc.isEmpty then splitWordsAux rest []
      else String.mk acc.reverse :: splitWordsAux rest []
    else splitWordsAux rest (c :: acc)

/-- Python `s.split()`: whitespace-separated words of `s`, empties dropped. -/
def pySplit (s : String) : List String :=
  splitWordsAux s.toList []

/-- `len(s.split())`: the number of whitespace-separated words of `s`. -/
def countWords (s : String) : Nat :=
  (pySplit s).length

/-- Python `s.strip()`: `s` with leading and trailing whitespace removed. -/
def pyStrip (s : String) : String :=
  String.mk (((s.toList.dropWhile (fun c => pyIsSpace c)).reverse.dropWhile
    (fun c => pyIsSpace c)).reverse)

/-- Auxiliary scan for the Python substring test. -/
def containsFrom (needle : List Char) : List Char → Bool
  | [] => needle.isEmpty
  | c :: rest => List.isPrefixOf needle (c :: rest) || containsFrom needle rest

/-- Python `needle in haystack` on strings: contiguous-substring test. -/
def pyContains (haystack needle : String) : Bool :=
  containsFrom needle.toList haystack.toList

/-- Python `s.lower()` (ASCII range, which covers the platform strings):
each character lowered. -/
def pyLower (s : String) : String :=
  String.mk (s.toList.map Char.toLower)

/-! ## `src/config.py`: platform detection and configuration -/

/-- Outcome of running the `nvidia-smi` subprocess in
`ConfigManager._has_cuda`: a completed process with an exit code, a
timeout (the call is bounded by `timeout=10`), or a missing binary. -/
inductive ProbeOutcome where
  | exited : Int → ProbeOutcome
  | timedOut : ProbeOutcome
  | fileNotFound : ProbeOutcome
deriving DecidableEq, Repr

/-- `ConfigManager._has_cuda`: CUDA is reported available exactly when the
`nvidia-smi` invocation completes with return code 0; a timeout or a
missing binary is caught and reported as unavailable. -/
def hasCuda : ProbeOutcome → Bool
  | ProbeOutcome.exited rc => rc == 0
  | ProbeOutcome.timedOut => false
  | ProbeOutcome.fileNotFound => false

/-- The `PlatformConfig` dataclass of `src/config.py`. -/
structure PlatformConfig where
  name : String
  supports_cuda : Bool
  supports_mps : Bool
  vllm_backend : String
  installation_method : String
  requirements_file : String
  docker_base_image : String
  additional_setup : List String
deriving DecidableEq, Repr

/-- The `"macos_apple_silicon"` entry of the configuration table. -/
def macosAppleSiliconConfig : PlatformConfig :=
  { name := "macOS Apple Silicon"
    supports_cuda := false
    supports_mps := true
    vllm_backend := "cpu"
    installation_method := "pip_source"
    requirements_file := "requirements-macos.txt"
    docker_base_image := "python:3.11-slim"
    additional_setup :=
      ["brew install cmake",
       "export MACOSX_DEPLOYMENT_TARGET=11.0",
       "pip install torch torchvision torchaudio"] }

/-- The `"macos_intel"` entry of the configuration table. -/
def macosIntelConfig : PlatformConfig :=
  { name := "macOS Intel"
    supports_cuda := false
    supports_mps := false
    vllm_backend := "cpu"
    installation_method := "pip_source"
    requirements_file := "requirements-macos.txt"
    docker_base_image := "python:3.11-slim"
    additional_setup :=
      ["brew install cmake",
       "pip install torch torchvision torchaudio"] }

/-- The `"linux"` entry of the configuration table; its `supports_cuda` and
`vllm_backend` fields come from two separate `self._has_cuda()` calls. -/
def linuxConfig (supports backendCuda : Bool) : PlatformConfig :=
  { name := "Linux"
    supports_cuda := supports
    supports_mps := false
    vllm_backend := if backendCuda then "cuda" else "cpu"
    installation_method := "pip"
    requirements_file := "requirements.txt"
    docker_base_image := "nvidia/cuda:12.1-devel-ubuntu22.04"
    additional_setup := [] }

/-- The `"windows"` entry of the configuration table; its `supports_cuda` and
`vllm_backend` fields come from two separate `self._has_cuda()` calls. -/
def windowsConfig (supports backendCuda : Bool) : PlatformConfig :=
  { name := "Windows"
    supports_cuda := supports
    supports_mps := false
    vllm_backend := if backendCuda then "cuda" else "cpu"
    installation_method := "pip"
    requirements_file := "requirements-windows.txt"
    docker_base_image := "mcr.microsoft.com/windows/servercore:ltsc2022"
    additional_setup :=
      ["Install Visual Studio Build Tools",
       "Install CUDA Toolkit if GPU acceleration needed"] }

/-- `ConfigManager._detect_platform`: the platform tag from the lowered
operating-system and machine strings. -/
def detectPlatform (rawSystem rawMachine : String) : String :=
  let system := pyLower rawSystem
  let machine := pyLower rawMachine
  if system = "darwin" then
    if pyContains machine "arm" || pyContains machine "aarch64" then
      "macos_apple_silicon"
    else
      "macos_intel"
  else if system = "linux" then "linux"
  else if system = "windows" then "windows"
  else "unknown"

/-- One `self._has_cuda()` call: `probe n` is the outcome of the `n`-th
`nvidia-smi` invocation of the process; the counter is threaded so the
number of invocations is observable. -/
def probeCuda (probe : Nat → ProbeOutcome) (n : Nat) : Bool × Nat :=
  (hasCuda (probe n), n + 1)

/-- `ConfigManager._get_platform_config`: builds the four-entry table (the
`linux` and `windows` entries each evaluate `self._has_cuda()` twice, in
dict-literal order) and returns `configs.get(platform, configs["linux"])`.
The second component is the number of probe invocations performed. -/
def getPlatformConfig (plat : String) (probe : Nat → ProbeOutcome) :
    PlatformConfig × Nat :=
  let (linuxSupports, n1) := probeCuda probe 0
  let (linuxBackendCuda, n2) := probeCuda probe n1
  let (winSupports, n3) := probeCuda probe n2
  let (winBackendCuda, n4) := probeCuda probe n3
  let cfg :=
    if plat = "macos_apple_silicon" then macosAppleSiliconConfig
    else if plat = "macos_intel" then macosIntelConfig
    else if plat = "linux" then linuxConfig linuxSupports linuxBackendCuda
    else if plat = "windows" then windowsConfig winSupports winBackendCuda
    else linuxConfig linuxSupports linuxBackendCuda
  (cfg, n4)

/-- A deterministic probe environment in which every `nvidia-smi` invocation
reports the same availability `cuda`. -/
def constProbe (cuda : Bool) : Nat → ProbeOutcome :=
  fun _ => if cuda then ProbeOutcome.exited 0 else ProbeOutcome.fileNotFound

/-- The platform configuration selector as a function of the detected
operating system, machine string, and CUDA-probe result. -/
def selectConfig (rawSystem rawMachine : String) (cuda : Bool) : PlatformConfig :=
  (getPlatformConfig (detectPlatform rawSystem rawMachine) (constProbe cuda)).1

/-! ## `src/app.py`: request and response shapes -/

/-- The `ChatMessage` pydantic model: `role: str`, `content: str`. -/
structure ChatMessage where
  role : String
  content : String
deriving DecidableEq, Repr

/-- The `ChatRequest` pydantic model; the sampling knobs are `Optional`
with defaults `512`, `0.7`, `0.9`. -/
structure ChatRequest where
  messages : List ChatMessage
  max_tokens : Option Int := some 512
  temperature : Option Rat := some (7 / 10)
  top_p : Option Rat := some (9 / 10)
deriving DecidableEq, Repr

/-- The `SamplingParams` record handed to the engine. -/
structure SamplingParams where
  temperature : Rat
  top_p : Rat
  max_tokens : Int
deriving DecidableEq, Repr

/-- Python `x or d` on an optional float: `d` when `x` is `None` or zero. -/
def pyOrRat (x : Option Rat) (d : Rat) : Rat :=
  match x with
  | none => d
  | some v => if v = 0 then d else v

/-- Python `x or d` on an optional int: `d` when `x` is `None` or zero. -/
def pyOrInt (x : Option Int) (d : Int) : Int :=
  match x with
  | none => d
  | some v => if v = 0 then d else v

/-- The `SamplingParams(...)` construction in `chat_completions`:
`request.temperature or 0.7`, `request.top_p or 0.9`,
`request.max_tokens or 512`. -/
def mkSamplingParams (req : ChatRequest) : SamplingParams :=
  { temperature := pyOrRat req.temperature (7 / 10)
    top_p := pyOrRat req.top_p (9 / 10)
    max_tokens := pyOrInt req.max_tokens 512 }

/-- The prompt-building loop of `chat_completions`: user messages become
`"User: {content}\n"`, assistant messages `"Assistant: {content}\n"`, any
other role adds nothing, and the loop result gets a trailing
`"Assistant:"` cue. -/
def buildPrompt (messages : List ChatMessage) : String :=
  (messages.foldl (fun prompt m =>
    if m.role = "user" then prompt ++ "User: " ++ m.content ++ "\n"
    else if m.role = "assistant" then prompt ++ "Assistant: " ++ m.content ++ "\n"
    else prompt) "") ++ "Assistant:"

/-- One candidate of an engine output (`output.text`). -/
structure CompletionOutput where
  text : String
deriving DecidableEq, Repr

/-- One output yielded by `llm_engine.generate`: a request id and the list
of candidate texts. -/
structure RequestOutput where
  request_id : String
  outputs : List CompletionOutput
deriving DecidableEq, Repr

/-- The message part of a response choice. -/
structure ChoiceMessage where
  role : String
  content : String
deriving DecidableEq, Repr

/-- One entry of the `choices` list of a chat response. -/
structure Choice where
  index : Nat
  message : ChoiceMessage
  finish_reason : String
deriving DecidableEq, Repr

/-- The `usage` record of a chat response. -/
structure Usage where
  prompt_tokens : Nat
  completion_tokens : Nat
  total_tokens : Nat
deriving DecidableEq, Repr

/-- The `ChatResponse` model. -/
structure ChatResponse where
  id : String
  choices : List Choice
  usage : Usage
deriving DecidableEq, Repr

/-- An `HTTPException` as raised by the endpoints: status code and detail. -/
structure HTTPError where
  status : Nat
  detail : String
deriving DecidableEq, Repr

/-- The `HealthResponse` model. -/
structure HealthResponse where
  status : String
  model : String
  gpu_memory_used : Option String := none
deriving DecidableEq, Repr

/-! ## `src/app.py`: endpoint handlers

The engine `generate` call is modelled as a function from the prompt and
sampling parameters to either a raised exception message or the finite
sequence of outputs it yields.
-/

/-- The body of `chat_completions` after pydantic validation: 503 when the
engine handle is unset; otherwise build the prompt and sampling
parameters, run `generate`, keep only the last yielded output, and wrap
the stripped text of its first candidate into the response. A raised
`HTTPException` inside the `try` block (no output yielded, or an empty
candidate list) is caught by `except Exception` and rewrapped into the
generic 500. The second component counts `generate` invocations. -/
def chatCompletions (enginePresent : Bool) (req : ChatRequest)
    (gen : String → SamplingParams → Except String (List RequestOutput)) :
    Except HTTPError ChatResponse × Nat :=
  if enginePresent = false then
    (Except.error { status := 503, detail := "Model not loaded" }, 0)
  else
    let prompt := buildPrompt req.messages
    let samplingParams := mkSamplingParams req
    match gen prompt samplingParams with
    | Except.error e =>
      (Except.error { status := 500, detail := "Generation failed: " ++ e }, 1)
    | Except.ok results =>
      match results.getLast? with
      | none =>
        (Except.error
          { status := 500, detail := "Generation failed: 500: No output generated" }, 1)
      | some finalOutput =>
        match finalOutput.outputs.head? with
        | none =>
          (Except.error
            { status := 500, detail := "Generation failed: list index out of range" }, 1)
        | some firstCandidate =>
          let generatedText := firstCandidate.text
          (Except.ok
            { id := "chat-" ++ finalOutput.request_id
              choices :=
                [{ index := 0
                   message := { role := "assistant", content := pyStrip generatedText }
                   finish_reason := "stop" }]
              usage :=
                { prompt_tokens := countWords prompt
                  completion_tokens := countWords generatedText
                  total_tokens := countWords prompt + countWords generatedText } }, 1)

/-- The `health_check` handler: 503 when the engine handle is unset;
otherwise a record whose `gpu_memory_used` reports the GPU
capability and whose `status` reflects vLLM availability. -/
def healthCheck (enginePresent : Bool) (cfg : PlatformConfig)
    (vllmAvailable : Bool) (modelName : String) :
    Except HTTPError HealthResponse :=
  if enginePresent = false then
    Except.error { status := 503, detail := "Model not loaded" }
  else
    let gpuInfo :=
      if cfg.supports_cuda then "CUDA enabled"
      else if cfg.supports_mps then "MPS (Apple Silicon) enabled"
      else "CPU only"
    let status := if vllmAvailable then "healthy" else "demo_mode"
    Except.ok { status := status, model := modelName, gpu_memory_used := some gpuInfo }

/-! ## Inbound request validation -/

/-- A JSON value, as carried by a request body. -/
inductive JValue where
  | jStr : String → JValue
  | jNum : Rat → JValue
  | jBool : Bool → JValue
  | jNull : JValue
  | jArr : List JValue → JValue
  | jObj : List (String × JValue) → JValue
deriving Repr

/-- One element of the `messages` array validates when it is an object
with string `role` and `content` fields, per the `ChatMessage` model. -/
def parseChatMessage : JValue → Option ChatMessage
  | JValue.jObj fields =>
    match fields.lookup "role", fields.lookup "content" with
    | some (JValue.jStr r), some (JValue.jStr c) => some { role := r, content := c }
    | _, _ => none
  | _ => none

/-- The `messages` field validates when it is an array whose every element
validates as a `ChatMessage`. -/
def parseMessages : JValue → Option (List ChatMessage)
  | JValue.jArr items => items.mapM parseChatMessage
  | _ => none

/-- An optional numeric field: absent means the model default, `null` means
`None`, a number is taken as given; anything else fails validation. -/
def parseOptRat (fields : List (String × JValue)) (key : String)
    (dflt : Option Rat) : Option (Option Rat) :=
  match fields.lookup key with
  | none => some dflt
  | some JValue.jNull => some none
  | some (JValue.jNum q) => some (some q)
  | some _ => none

/-- An optional integer field: absent means the model default, `null` means
`None`, an integral number is taken as given; anything else fails. -/
def parseOptInt (fields : List (String × JValue)) (key : String)
    (dflt : Option Int) : Option (Option Int) :=
  match fields.lookup key with
  | none => some dflt
  | some JValue.jNull => some none
  | some (JValue.jNum q) => if q.den = 1 then some (some q.num) else none
  | some _ => none

/-- Modelled from the spec: the FastAPI/pydantic validation layer (the
framework itself is not part of `src/`) checks the request body against
the `ChatRequest` model declared in `src/app.py` before the handler runs;
a body failing validation is rejected with a 422 client error. -/
def validateChatRequest (body : JValue) : Option ChatRequest :=
  match body with
  | JValue.jObj fields =>
    match fields.lookup "messages" with
    | none => none
    | some mv =>
      match parseMessages mv with
      | none => none
      | some msgs =>
        match parseOptInt fields "max_tokens" (some 512),
              parseOptRat fields "temperature" (some (7 / 10)),
              parseOptRat fields "top_p" (some (9 / 10)) with
        | some mt, some tp, some pp =>
          some { messages := msgs, max_tokens := mt, temperature := tp, top_p := pp }
        | _, _, _ => none
  | _ => none

/-- The full `POST /v1/chat/completions` pipeline: validation first (422 on
failure, handler never entered), then the handler body. -/
def handleChatCompletions (enginePresent : Bool) (body : JValue)
    (gen : String → SamplingParams → Except String (List RequestOutput)) :
    Except HTTPError ChatResponse × Nat :=
  match validateChatRequest body with
  | none => (Except.error { status := 422, detail := "Unprocessable Entity" }, 0)
  | some req => chatCompletions enginePresent req gen

/-! ## The spec-side prompt rendering, for the refinement comparison -/

/-- Spec-side rendering of one message: its content under its fixed role
prefix, or nothing for a role without one. -/
def renderMessage (m : ChatMessage) : String :=
  if m.role = "user" then "User: " ++ m.content ++ "\n"
  else if m.role = "assistant" then "Assistant: " ++ m.content ++ "\n"
  else ""

/-- Spec-side transcript: the concatenation, in order, of the rendered
messages. -/
def renderedTranscript (messages : List ChatMessage) : String :=
  (messages.map renderMessage).foldr (fun a b => a ++ b) ""

end VllmPoc

namespace VllmPoc

/-- C1: for every chat completion request that succeeds, `prompt_tokens` is
the whitespace-split word count of the constructed prompt,
`completion_tokens` is the word count of the generated text, and
`total_tokens` is their sum. -/
theorem spec_C1_usage_token_counts (req : ChatRequest)
    (gen : String → SamplingParams → Except String (List RequestOutput))
    (outs : List RequestOutput) (fo : RequestOutput) (cand : CompletionOutput)
    (hgen : gen (buildPrompt req.messages) (mkSamplingParams req) = Except.ok outs)
    (hlast : outs.getLast? = some fo)
    (hhead : fo.outputs.head? = some cand) :
    ∃ resp : ChatResponse,
      (chatCompletions true req gen).1 = Except.ok resp ∧
      resp.usage.prompt_tokens = countWords (buildPrompt req.messages) ∧
      resp.usage.completion_tokens = countWords cand.text ∧
      resp.usage.total_tokens = resp.usage.prompt_tokens + resp.usage.completion_tokens := by
  have hres : (chatCompletions true req gen).1 = Except.ok
      { id := "chat-" ++ fo.request_id
        choices :=
          [{ index := 0
             message := { role := "assistant", content := pyStrip cand.text }
             finish_reason := "stop" }]
        usage :=
          { prompt_tokens := countWords (buildPrompt req.messages)
            completion_tokens := countWords cand.text
            total_tokens :=
              countWords (buildPrompt req.messages) + countWords cand.text } } := by
    simp [chatCompletions, hgen, hlast, hhead]
  exact ⟨_, hres, rfl, rfl, rfl⟩

/-- C1 witness: the theorem at a concrete request and engine. -/
theorem spec_C1_usage_token_counts_witness :
    ∃ resp : ChatResponse,
      (chatCompletions true { messages := [{ role := "user", content := "Hello" }] }
        (fun _ _ => Except.ok [{ request_id := "chat", outputs := [{ text := " Hi there " }] }])).1
        = Except.ok resp ∧
      resp.usage.prompt_tokens
        = countWords (buildPrompt [{ role := "user", content := "Hello" }]) ∧
      resp.usage.completion_tokens = countWords " Hi there " ∧
      resp.usage.total_tokens
        = resp.usage.prompt_tokens + resp.usage.completion_tokens :=
  spec_C1_usage_token_counts
    { messages := [{ role := "user", content := "Hello" }] }
    (fun _ _ => Except.ok [{ request_id := "chat", outputs := [{ text := " Hi there " }] }])
    [{ request_id := "chat", outputs := [{ text := " Hi there " }] }]
    { request_id := "chat", outputs := [{ text := " Hi there " }] }
    { text := " Hi there " } rfl rfl rfl

/-- C2 counterexample: the content of a schema-valid system message does not
appear in the constructed prompt at all; the loop only renders user and
assistant messages, so the claim that the content of every message appears
under a fixed role prefix fails. -/
theorem spec_C2_counterexample :
    buildPrompt [{ role := "system", content := "Be concise" }] = "Assistant:" ∧
    pyContains (buildPrompt [{ role := "system", content := "Be concise" }])
      "Be concise" = false := by
  constructor
  · rfl
  · rfl

/-- The prompt-building fold appends the rendered transcript to its
accumulator. -/
theorem buildPrompt_foldl_eq (messages : List ChatMessage) (acc : String) :
    messages.foldl (fun prompt m =>
      if m.role = "user" then prompt ++ "User: " ++ m.content ++ "\n"
      else if m.role = "assistant" then prompt ++ "Assistant: " ++ m.content ++ "\n"
      else prompt) acc = acc ++ renderedTranscript messages := by
  induction messages generalizing acc with
  | nil => simp [renderedTranscript]
  | cons m ms ih =>
    simp only [List.foldl_cons, ih, renderedTranscript, List.map_cons, List.foldr_cons]
    by_cases hu : m.role = "user"
    · simp [renderMessage, hu, String.append_assoc]
    · by_cases ha : m.role = "assistant"
      · simp [renderMessage, hu, ha, String.append_assoc]
      · simp [renderMessage, hu, ha]

/-- C2 (amended): the prompt is the concatenation, in message order, of
the content of each user message as `"User: {content}\n"` and of each
assistant message as `"Assistant: {content}\n"`, messages of any other
role (system included) contributing nothing, followed by the trailing
`"Assistant:"` cue. -/
theorem spec_C2_prompt_transcript (messages : List ChatMessage) :
    buildPrompt messages = renderedTranscript messages ++ "Assistant:" := by
  unfold buildPrompt
  rw [buildPrompt_foldl_eq]
  simp

/-- C3: the chat handler keeps only the last yielded output: the returned
message content is the stripped text of the first candidate of the last
yielded output, and two runs whose yielded sequences end in the same
output produce identical results. -/
theorem spec_C3_last_output_is_final (req : ChatRequest)
    (gen₁ gen₂ : String → SamplingParams → Except String (List RequestOutput))
    (outs₁ outs₂ : List RequestOutput) (fo : RequestOutput) (cand : CompletionOutput)
    (hgen₁ : gen₁ (buildPrompt req.messages) (mkSamplingParams req) = Except.ok outs₁)
    (hgen₂ : gen₂ (buildPrompt req.messages) (mkSamplingParams req) = Except.ok outs₂)
    (hlast₁ : outs₁.getLast? = some fo)
    (hlast₂ : outs₂.getLast? = some fo)
    (hhead : fo.outputs.head? = some cand) :
    chatCompletions true req gen₁ = chatCompletions true req gen₂ ∧
    ∃ resp : ChatResponse,
      (chatCompletions true req gen₁).1 = Except.ok resp ∧
      resp.choices.head? = some
        { index := 0
          message := { role := "assistant", content := pyStrip cand.text }
          finish_reason := "stop" } := by
  constructor
  · simp [chatCompletions, hgen₁, hgen₂, hlast₁, hlast₂]
  · have hres : (chatCompletions true req gen₁).1 = Except.ok
        { id := "chat-" ++ fo.request_id
          choices :=
            [{ index := 0
               message := { role := "assistant", content := pyStrip cand.text }
               finish_reason := "stop" }]
          usage :=
            { prompt_tokens := countWords (buildPrompt req.messages)
              completion_tokens := countWords cand.text
              total_tokens :=
                countWords (buildPrompt req.messages) + countWords cand.text } } := by
      simp [chatCompletions, hgen₁, hlast₁, hhead]
    exact ⟨_, hres, rfl⟩

/-- C3 witness: two engines, one yielding two outputs and one yielding only
the shared last output, give identical responses. -/
theorem spec_C3_last_output_is_final_witness :
    chatCompletions true { messages := [{ role := "user", content := "Hello" }] }
      (fun _ _ => Except.ok
        [{ request_id := "chat", outputs := [{ text := "draft" }] },
         { request_id := "chat", outputs := [{ text := "Hi" }] }])
      = chatCompletions true { messages := [{ role := "user", content := "Hello" }] }
        (fun _ _ => Except.ok [{ request_id := "chat", outputs := [{ text := "Hi" }] }]) ∧
    ∃ resp : ChatResponse,
      (chatCompletions true { messages := [{ role := "user", content := "Hello" }] }
        (fun _ _ => Except.ok
          [{ request_id := "chat", outputs := [{ text := "draft" }] },
           { request_id := "chat", outputs := [{ text := "Hi" }] }])).1
        = Except.ok resp ∧
      resp.choices.head? = some
        { index := 0
          message := { role := "assistant", content := pyStrip "Hi" }
          finish_reason := "stop" } :=
  spec_C3_last_output_is_final
    { messages := [{ role := "user", content := "Hello" }] }
    (fun _ _ => Except.ok
      [{ request_id := "chat", outputs := [{ text := "draft" }] },
       { request_id := "chat", outputs := [{ text := "Hi" }] }])
    (fun _ _ => Except.ok [{ request_id := "chat", outputs := [{ text := "Hi" }] }])
    [{ request_id := "chat", outputs := [{ text := "draft" }] },
     { request_id := "chat", outputs := [{ text := "Hi" }] }]
    [{ request_id := "chat", outputs := [{ text := "Hi" }] }]
    { request_id := "chat", outputs := [{ text := "Hi" }] }
    { text := "Hi" } rfl rfl rfl rfl rfl

end VllmPoc

namespace VllmPoc

/-- Every probe of a deterministic CUDA environment reports its fixed
availability. -/
theorem hasCuda_constProbe (cuda : Bool) (n : Nat) :
    hasCuda (constProbe cuda n) = cuda := by
  cases cuda <;> rfl

/-- The detected platform tag is one of the five literals the detector can
return. -/
theorem detectPlatform_cases (s m : String) :
    detectPlatform s m = "macos_apple_silicon" ∨ detectPlatform s m = "macos_intel" ∨
    detectPlatform s m = "linux" ∨ detectPlatform s m = "windows" ∨
    detectPlatform s m = "unknown" := by
  simp only [detectPlatform]
  split_ifs <;> simp

/-- C4: the platform configuration selector is a pure function of the
operating-system string, the machine string, and the CUDA-probe result:
it always returns one of the four fixed records, identical inputs yield
the identical record, and a platform tag outside the table falls back to
the Linux record. -/
theorem spec_C4_platform_selector_total (rawSystem rawMachine : String) (cuda : Bool) :
    (selectConfig rawSystem rawMachine cuda = macosAppleSiliconConfig ∨
     selectConfig rawSystem rawMachine cuda = macosIntelConfig ∨
     selectConfig rawSystem rawMachine cuda = linuxConfig cuda cuda ∨
     selectConfig rawSystem rawMachine cuda = windowsConfig cuda cuda) ∧
    (∀ s₂ m₂ c₂, s₂ = rawSystem → m₂ = rawMachine → c₂ = cuda →
      selectConfig s₂ m₂ c₂ = selectConfig rawSystem rawMachine cuda) ∧
    (detectPlatform rawSystem rawMachine = "unknown" →
      selectConfig rawSystem rawMachine cuda = linuxConfig cuda cuda) := by
  refine ⟨?_, ?_, ?_⟩
  · rcases detectPlatform_cases rawSystem rawMachine with h | h | h | h | h <;>
      simp [selectConfig, getPlatformConfig, probeCuda, hasCuda_constProbe, h]
  · intro s₂ m₂ c₂ hs hm hc
    subst hs; subst hm; subst hc; rfl
  · intro h
    simp [selectConfig, getPlatformConfig, probeCuda, hasCuda_constProbe, h]

/-- C4 witness: an unrecognised platform pair selects the Linux record. -/
theorem spec_C4_platform_selector_total_witness :
    selectConfig "plan9" "mips" true = linuxConfig true true :=
  (spec_C4_platform_selector_total "plan9" "mips" true).2.2 (by decide)

/-- C5 counterexample: constructing the configuration invokes the CUDA
probe four times, not once, and the probe result is not cached: an
environment in which only the first invocation succeeds yields a Linux
record reporting CUDA supported while requesting the CPU backend. -/
theorem spec_C5_counterexample :
    (getPlatformConfig "linux"
      (fun n => if n = 0 then ProbeOutcome.exited 0 else ProbeOutcome.timedOut)).2 = 4 ∧
    (getPlatformConfig "linux"
      (fun n => if n = 0 then ProbeOutcome.exited 0
                else ProbeOutcome.timedOut)).1.supports_cuda = true ∧
    (getPlatformConfig "linux"
      (fun n => if n = 0 then ProbeOutcome.exited 0
                else ProbeOutcome.timedOut)).1.vllm_backend = "cpu" := by
  decide

/-- C5 (amended): a probe invocation reports CUDA available exactly on a
zero exit code, any timeout, missing binary, or non-zero exit yielding
unavailable with no retry inside the probe; the per-process configuration
construction invokes the probe four times (its boolean result is not
cached between invocations), and only the resulting configuration record
is cached for the process lifetime. -/
theorem spec_C5_probe_semantics (rc : Int) (plat : String)
    (probe : Nat → ProbeOutcome) (hrc : rc ≠ 0) :
    hasCuda (ProbeOutcome.exited 0) = true ∧
    hasCuda (ProbeOutcome.exited rc) = false ∧
    hasCuda ProbeOutcome.timedOut = false ∧
    hasCuda ProbeOutcome.fileNotFound = false ∧
    (getPlatformConfig plat probe).2 = 4 := by
  refine ⟨rfl, ?_, rfl, rfl, rfl⟩
  simp [hasCuda, hrc]

/-- C5 witness: the amended probe semantics at a concrete exit code,
platform, and probe environment. -/
theorem spec_C5_probe_semantics_witness :
    hasCuda (ProbeOutcome.exited 0) = true ∧
    hasCuda (ProbeOutcome.exited 1) = false ∧
    hasCuda ProbeOutcome.timedOut = false ∧
    hasCuda ProbeOutcome.fileNotFound = false ∧
    (getPlatformConfig "linux" (fun _ => ProbeOutcome.timedOut)).2 = 4 :=
  spec_C5_probe_semantics 1 "linux" (fun _ => ProbeOutcome.timedOut) (by decide)

/-- C6: the health endpoint returns 503 whenever the engine handle is
unset, regardless of any other state; with the engine set it returns a
record carrying a status, the model name, and a GPU-memory field. -/
theorem spec_C6_health_endpoint (enginePresent : Bool) (cfg : PlatformConfig)
    (vllmAvailable : Bool) (modelName : String) :
    (enginePresent = false →
      healthCheck enginePresent cfg vllmAvailable modelName
        = Except.error { status := 503, detail := "Model not loaded" }) ∧
    (enginePresent = true →
      ∃ s g, healthCheck enginePresent cfg vllmAvailable modelName
        = Except.ok { status := s, model := modelName, gpu_memory_used := some g }) := by
  constructor
  · intro h
    simp [healthCheck, h]
  · intro h
    refine ⟨if vllmAvailable then "healthy" else "demo_mode",
      if cfg.supports_cuda then "CUDA enabled"
      else if cfg.supports_mps then "MPS (Apple Silicon) enabled"
      else "CPU only", ?_⟩
    simp [healthCheck, h]

/-- C6 witness: the health endpoint at concrete states, engine absent and
engine present. -/
theorem spec_C6_health_endpoint_witness :
    healthCheck false macosIntelConfig true "demo-model"
      = Except.error { status := 503, detail := "Model not loaded" } ∧
    ∃ s g, healthCheck true macosIntelConfig true "demo-model"
      = Except.ok { status := s, model := "demo-model", gpu_memory_used := some g } :=
  ⟨(spec_C6_health_endpoint false macosIntelConfig true "demo-model").1 rfl,
   (spec_C6_health_endpoint true macosIntelConfig true "demo-model").2 rfl⟩

end VllmPoc

namespace VllmPoc

/-- C7: a request body whose `messages` field does not validate as a
sequence of role/content objects is rejected with 422 and the
`generate` is never invoked. -/
theorem spec_C7_invalid_messages_422 (enginePresent : Bool)
    (fields : List (String × JValue)) (mv : JValue)
    (gen : String → SamplingParams → Except String (List RequestOutput))
    (hlookup : fields.lookup "messages" = some mv)
    (hbad : parseMessages mv = none) :
    handleChatCompletions enginePresent (JValue.jObj fields) gen
      = (Except.error { status := 422, detail := "Unprocessable Entity" }, 0) := by
  simp [handleChatCompletions, validateChatRequest, hlookup, hbad]

/-- C7 witness: the invalid body from the repository test suite, `messages` bound to
a plain string. -/
theorem spec_C7_invalid_messages_422_witness :
    handleChatCompletions true (JValue.jObj [("messages", JValue.jStr "invalid")])
      (fun _ _ => Except.ok [])
      = (Except.error { status := 422, detail := "Unprocessable Entity" }, 0) :=
  spec_C7_invalid_messages_422 true [("messages", JValue.jStr "invalid")]
    (JValue.jStr "invalid") (fun _ _ => Except.ok []) rfl rfl

/-- C8: with the engine handle set, an exception raised during generation
produces a 500 response whose detail carries the exception message. -/
theorem spec_C8_generation_error_500 (req : ChatRequest)
    (gen : String → SamplingParams → Except String (List RequestOutput)) (e : String)
    (hgen : gen (buildPrompt req.messages) (mkSamplingParams req) = Except.error e) :
    chatCompletions true req gen
      = (Except.error { status := 500, detail := "Generation failed: " ++ e }, 1) := by
  simp [chatCompletions, hgen]

/-- C8 witness: a concrete engine raising a concrete message. -/
theorem spec_C8_generation_error_500_witness :
    chatCompletions true { messages := [{ role := "user", content := "Hello" }] }
      (fun _ _ => Except.error "CUDA out of memory")
      = (Except.error
          { status := 500, detail := "Generation failed: CUDA out of memory" }, 1) :=
  spec_C8_generation_error_500 { messages := [{ role := "user", content := "Hello" }] }
    (fun _ _ => Except.error "CUDA out of memory") "CUDA out of memory" rfl

/-- C9: a sampling knob explicitly set to its falsy zero value is replaced
by the fixed default, exactly as when the field is omitted. -/
theorem spec_C9_falsy_params_use_defaults (req : ChatRequest) :
    (req.temperature = some 0 → (mkSamplingParams req).temperature = 7 / 10) ∧
    (req.top_p = some 0 → (mkSamplingParams req).top_p = 9 / 10) ∧
    (req.max_tokens = some 0 → (mkSamplingParams req).max_tokens = 512) ∧
    mkSamplingParams
      { req with max_tokens := some 0, temperature := some 0, top_p := some 0 }
      = mkSamplingParams
        { req with max_tokens := none, temperature := none, top_p := none } := by
  refine ⟨?_, ?_, ?_, ?_⟩
  · intro h
    simp [mkSamplingParams, pyOrRat, h]
  · intro h
    simp [mkSamplingParams, pyOrRat, h]
  · intro h
    simp [mkSamplingParams, pyOrInt, h]
  · simp [mkSamplingParams, pyOrRat, pyOrInt]

/-- C9 witness: all three knobs explicitly zero yield the defaults. -/
theorem spec_C9_falsy_params_use_defaults_witness :
    (mkSamplingParams
      { messages := [], max_tokens := some 0, temperature := some 0,
        top_p := some 0 }).temperature = 7 / 10 ∧
    (mkSamplingParams
      { messages := [], max_tokens := some 0, temperature := some 0,
        top_p := some 0 }).top_p = 9 / 10 ∧
    (mkSamplingParams
      { messages := [], max_tokens := some 0, temperature := some 0,
        top_p := some 0 }).max_tokens = 512 :=
  ⟨(spec_C9_falsy_params_use_defaults
      { messages := [], max_tokens := some 0, temperature := some 0,
        top_p := some 0 }).1 rfl,
   (spec_C9_falsy_params_use_defaults
      { messages := [], max_tokens := some 0, temperature := some 0,
        top_p := some 0 }).2.1 rfl,
   (spec_C9_falsy_params_use_defaults
      { messages := [], max_tokens := some 0, temperature := some 0,
        top_p := some 0 }).2.2.1 rfl⟩

/-- C10: every successful chat completion response has exactly one choice,
with index 0, message role assistant, and finish reason stop. -/
theorem spec_C10_single_assistant_choice (enginePresent : Bool) (req : ChatRequest)
    (gen : String → SamplingParams → Except String (List RequestOutput))
    (resp : ChatResponse) (k : Nat)
    (h : chatCompletions enginePresent req gen = (Except.ok resp, k)) :
    ∃ c : Choice, resp.choices = [c] ∧ c.index = 0 ∧
      c.message.role = "assistant" ∧ c.finish_reason = "stop" := by
  cases enginePresent with
  | false => simp [chatCompletions] at h
  | true =>
    cases hgen : gen (buildPrompt req.messages) (mkSamplingParams req) with
    | error e => simp [chatCompletions, hgen] at h
    | ok outs =>
      cases hlast : outs.getLast? with
      | none => simp [chatCompletions, hgen, hlast] at h
      | some fo =>
        cases hhead : fo.outputs.head? with
        | none => simp [chatCompletions, hgen, hlast, hhead] at h
        | some cand =>
          simp only [chatCompletions, hgen, hlast, hhead, Prod.mk.injEq,
            Bool.true_eq_false, if_false, ite_false, Except.ok.injEq] at h
          obtain ⟨hr, -⟩ := h
          subst hr
          exact ⟨_, rfl, rfl, rfl, rfl⟩

/-- C10 witness: the theorem at a concrete successful exchange. -/
theorem spec_C10_single_assistant_choice_witness :
    ∃ c : Choice,
      ({ id := "chat-chat"
         choices :=
           [{ index := 0
              message := { role := "assistant", content := "Hi" }
              finish_reason := "stop" }]
         usage :=
           { prompt_tokens := 3, completion_tokens := 1,
             total_tokens := 4 } } : ChatResponse).choices = [c] ∧
      c.index = 0 ∧ c.message.role = "assistant" ∧ c.finish_reason = "stop" :=
  spec_C10_single_assistant_choice true
    { messages := [{ role := "user", content := "Hello" }] }
    (fun _ _ => Except.ok [{ request_id := "chat", outputs := [{ text := "Hi" }] }])
    { id := "chat-chat"
      choices :=
        [{ index := 0
           message := { role := "assistant", content := "Hi" }
           finish_reason := "stop" }]
      usage :=
        { prompt_tokens := 3, completion_tokens := 1, total_tokens := 4 } }
    1 (by rfl)

end VllmPoc
